import Mathlib

/-!
Shallow embedding of the particle-visualization page of the
TTC-Project-Page repository (single client component, `src/unnamed/part_000`).

The interesting code consists of:
* `VIZ_DESCRIPTIONS` — a static lookup table from mode identifiers to an
  insight description (title and explanatory text);
* `changeVizMode` — the mode switcher: immediately writes the new mode into
  the config ref read by the render loop, and schedules (500 ms later) the
  swap of the displayed insight description;
* `createParticles` — a single pass over particle indices `i = 0 .. N-1`
  that fills twelve flat target buffers (three numbers pushed per index per
  mode), drawing a fixed number of pseudo-random values per iteration and
  threading a shared Euler-integration state for the lorenz mode;
* `updateLines` — the per-frame line rebuild: hidden for five modes,
  otherwise a windowed scan over index pairs emitting a segment whenever the
  squared distance is below a mode-dependent threshold;
* `animate` — the per-frame movement (easing each live coordinate toward the
  active mode target by the fixed fraction 0.04) and the neural-mode-only
  recoloring.

Modelling conventions:
* JavaScript floating-point numbers are modelled as real numbers `ℝ`
  (so transcendental functions are total and every produced entry is a
  genuine, finite real).  The line-rebuild scan only uses `+`, `-`, `*` and
  `<` on buffer entries, so it is embedded over `ℚ` to keep it executable.
* `Math.random()` is modelled as an ambient stream `rnd : ℕ → ℝ`; iteration
  `i` of the generation loop performs exactly 18 draws, the `k`-th draw of
  iteration `i` being `rnd (18 * i + k)` in source order.
* Flat `push`-built buffers are modelled as `List ℝ`; three values pushed
  per index, so the buffer for count `N` is the concatenation of the
  per-index triples over `i = 0 .. N-1`.
* Timers (`setTimeout`) are modelled by a pending entry `(fire time, mode)`
  in the UI state together with an explicit `fireInsightTimer` transition.
-/

namespace TTC

/-! ### Insight descriptions and the mode switcher -/

/-- An insight-box description.  The source stores a `title` and an
explanatory `text`; the long prose `text` strings play no role in any
property (the insight is read and written only as a whole), so the record
keeps the `title` field that identifies each entry. -/
structure Desc where
  title : String
deriving DecidableEq, Repr

/-- The static `VIZ_DESCRIPTIONS` table: the twelve mode keys, in source
order, with their titles. -/
def VIZ_DESCRIPTIONS : List (String × Desc) :=
  [("graph", ⟨"Network Theory"⟩),
   ("orbit", ⟨"Orbital Mechanics"⟩),
   ("matrix", ⟨"Linear Algebra"⟩),
   ("threebody", ⟨"The Three-Body Problem"⟩),
   ("lorenz", ⟨"The Lorenz Attractor"⟩),
   ("neural", ⟨"Multi-Layer Perceptron"⟩),
   ("quant", ⟨"Monte Carlo Simulation"⟩),
   ("nash", ⟨"Nash Equilibrium"⟩),
   ("golden", ⟨"The Golden Ratio"⟩),
   ("topology", ⟨"Topology"⟩),
   ("calculus", ⟨"Calculus & Motion"⟩),
   ("series", ⟨"Fourier Series"⟩)]

/-- UI state shared between React state and the config ref: the active mode
read by the render loop (`configRef.current.mode`), the displayed insight
(`insight`, `none` when set to a missing table entry), the fade flag
(`isUpdatingInsight`) and the pending deferred insight swap, as the pair of
its fire time and the mode identifier captured by the `setTimeout`
closure. -/
structure UIState where
  mode : String
  insight : Option Desc
  isUpdatingInsight : Bool
  pendingSwap : Option (ℕ × String)
deriving DecidableEq, Repr

/-- Initial UI state: `useState('graph')` and
`useState(VIZ_DESCRIPTIONS['graph'])`. -/
def initialUIState : UIState :=
  { mode := "graph"
    insight := VIZ_DESCRIPTIONS.lookup "graph"
    isUpdatingInsight := false
    pendingSwap := none }

/-- The mode switcher `changeVizMode`, called at time `now` (milliseconds):
immediately sets the active mode (both `setVizMode` and
`configRef.current.mode = mode`), raises the fade flag, and schedules
`setInsight(VIZ_DESCRIPTIONS[mode])` to run 500 ms later.  The insight
itself is untouched until the timer fires. -/
def changeVizMode (now : ℕ) (mode : String) (s : UIState) : UIState :=
  { mode := mode
    insight := s.insight
    isUpdatingInsight := true
    pendingSwap := some (now + 500, mode) }

/-- Timer delivery at time `t`: the scheduled callback runs exactly when its
fire time has been reached, performing the deferred lookup
`VIZ_DESCRIPTIONS[mode]` and clearing the fade flag; otherwise the state is
unchanged. -/
def fireInsightTimer (t : ℕ) (s : UIState) : UIState :=
  match s.pendingSwap with
  | some (tf, m) =>
      if tf ≤ t then
        { mode := s.mode
          insight := VIZ_DESCRIPTIONS.lookup m
          isUpdatingInsight := false
          pendingSwap := none }
      else s
  | none => s

/-! ### Line rebuild (`updateLines`)

The scan reads only finitely many entries of the flat position buffer and
combines them with `-`, `*`, `+` and `<`, so it is embedded over `ℚ`
(executable, decidable order); the buffer is a total function from flat
indices to values. -/

/-- Modes for which `updateLines` hides the mesh and returns without
rebuilding. -/
def lineSkipModes : List String := ["lorenz", "quant", "series", "topology", "calculus"]

/-- The mode-dependent squared-distance threshold: initialised to 12, then
overwritten for neural / nash / matrix exactly as the source's sequence of
`if` statements does. -/
def lineThreshold (mode : String) : ℚ :=
  let t : ℚ := 12
  let t := if mode = "neural" then 30 else t
  let t := if mode = "nash" then 8 else t
  if mode = "matrix" then 14 else t

/-- Squared Euclidean distance between particles `i` and `j` read from the
flat position buffer: `dx*dx + dy*dy + dz*dz`. -/
def distSq (pos : ℕ → ℚ) (i j : ℕ) : ℚ :=
  let dx := pos (i * 3) - pos (j * 3)
  let dy := pos (i * 3 + 1) - pos (j * 3 + 1)
  let dz := pos (i * 3 + 2) - pos (j * 3 + 2)
  dx * dx + dy * dy + dz * dz

/-- The emission test of the inner loop: `distSq < threshold`. -/
def pairEmits (mode : String) (pos : ℕ → ℚ) (i j : ℕ) : Bool :=
  distSq pos i j < lineThreshold mode

/-- The six numbers pushed for an emitted pair: the two endpoints. -/
def segmentOf (pos : ℕ → ℚ) (i j : ℕ) : List ℚ :=
  [pos (i * 3), pos (i * 3 + 1), pos (i * 3 + 2),
   pos (j * 3), pos (j * 3 + 1), pos (j * 3 + 2)]

/-- Indices visited by the outer loop `for (i = 0; i < limit; i += step)`:
the multiples of `step` below `limit`. -/
def outerScan (step limit : ℕ) : List ℕ :=
  (List.range limit).filter (fun i => i % step = 0)

/-- Indices visited by the inner loop
`for (j = i + 1; j < Math.min(i + checkLimit, limit); j++)`. -/
def innerScan (i checkLimit limit : ℕ) : List ℕ :=
  List.range' (i + 1) (min (i + checkLimit) limit - (i + 1))

/-- The scanned index pairs of one rebuild, in visit order. -/
def scanPairs (isMobile : Bool) (limit : ℕ) : List (ℕ × ℕ) :=
  let checkLimit := if isMobile then 15 else 40
  let step := if isMobile then 3 else 2
  (outerScan step limit).flatMap (fun i => (innerScan i checkLimit limit).map (fun j => (i, j)))

/-- The per-frame `updateLines`: for the five no-line modes the mesh is made
invisible and the function returns without touching the geometry (`none`);
otherwise the mesh is visible and the geometry is rebuilt (`some`) from the
windowed pair scan, pushing one segment per pair passing the strict
threshold test. -/
def updateLines (mode : String) (isMobile : Bool) (limit : ℕ) (pos : ℕ → ℚ) :
    Bool × Option (List ℚ) :=
  if mode = "lorenz" ∨ mode = "quant" ∨ mode = "series" ∨ mode = "topology" ∨ mode = "calculus" then
    (false, none)
  else
    let linePositions :=
      (scanPairs isMobile limit).flatMap
        (fun p => if pairEmits mode pos p.1 p.2 then segmentOf pos p.1 p.2 else [])
    (true, some linePositions)

/-! ### Target generation (`createParticles`)

One pass over `i = 0 .. N-1` pushes one 3D point per mode per index.  The
pseudo-random stream is `rnd : ℕ → ℝ`; iteration `i` makes exactly 18 calls
to `Math.random()`, numbered `0 .. 17` in source order:
x, y, z, isGold, orbitAngle, ring, ringRad jitter, orbit y, tAngle, tRad,
layerY, layerZ, pathOffset, quant z, sx, sz, sTheta, sPhi draw. -/

/-- The `k`-th pseudo-random draw of generation-loop iteration `i`. -/
def draw (rnd : ℕ → ℝ) (i k : ℕ) : ℝ := rnd (18 * i + k)

noncomputable section

/-- Mode 1, graph: uniform cloud in a ±20 × ±20 × ±10 box. -/
def graphTriple (rnd : ℕ → ℝ) (i : ℕ) : ℝ × ℝ × ℝ :=
  ((draw rnd i 0 - 0.5) * 40, (draw rnd i 1 - 0.5) * 40, (draw rnd i 2 - 0.5) * 20)

/-- Mode 2, orbit: a point on one of three concentric rings, with jittered
radius and a small random vertical offset. -/
def orbitTriple (rnd : ℕ → ℝ) (i : ℕ) : ℝ × ℝ × ℝ :=
  let orbitAngle := draw rnd i 4 * Real.pi * 2
  let ring := ⌊draw rnd i 5 * 3⌋
  let baseRad : ℝ := 6 + ring * 5
  let ringRad := baseRad + (draw rnd i 6 - 0.5) * 2
  (Real.cos orbitAngle * ringRad, (draw rnd i 7 - 0.5) * 2, Real.sin orbitAngle * ringRad)

/-- Mode 3, matrix: a regular 15 × 15 × … lattice with spacing 3.5, indexed
by modular arithmetic on `i`. -/
def matrixTriple (i : ℕ) : ℝ × ℝ × ℝ :=
  let spacing : ℝ := 3.5
  let mx := (((i % 15 : ℕ) : ℝ) - 7) * spacing
  let my := (((i / 15 % 15 : ℕ) : ℝ) - 7) * spacing
  let mz := (((i / 225 : ℕ) : ℝ) - 2) * spacing
  (mx, my, mz)

/-- Mode 4, threebody: `i % 3` picks one of three clusters; the point is a
random offset around the cluster centre. -/
def threebodyTriple (rnd : ℕ → ℝ) (i : ℕ) : ℝ × ℝ × ℝ :=
  let tAngle := draw rnd i 8 * Real.pi * 2
  let tRad := draw rnd i 9 * 4
  if i % 3 = 0 then (-12 + Real.cos tAngle * tRad, Real.sin tAngle * tRad, 0)
  else if i % 3 = 1 then (12 + Real.cos tAngle * tRad, Real.sin tAngle * tRad, 0)
  else (Real.cos tAngle * (tRad + 10), 12 + Real.sin tAngle * tRad, Real.sin tAngle * 5)

/-- Mode 5, neural: `i % 5` picks one of five layer x-positions; y and z are
random within a band. -/
def neuralTriple (rnd : ℕ → ℝ) (i : ℕ) : ℝ × ℝ × ℝ :=
  let layerX := (((i % 5 : ℕ) : ℝ) - 2) * 7
  (layerX, (draw rnd i 10 - 0.5) * 16, (draw rnd i 11 - 0.5) * 16)

/-- Mode 6, quant: x swept linearly with `i`; spread grows as a power law of
the normalised x. -/
def quantTriple (rnd : ℕ → ℝ) (pCount i : ℕ) : ℝ × ℝ × ℝ :=
  let quantX := ((i : ℝ) / (pCount : ℝ)) * 45 - 20
  let timeRatio := (quantX + 20) / 45
  let volatility := timeRatio ^ (1.5 : ℝ) * 18
  let pathOffset := (draw rnd i 12 - 0.5) * volatility
  (quantX, pathOffset + timeRatio * 8, (draw rnd i 13 - 0.5) * (volatility + 2))

/-- Mode 7, nash: x and z uniform in a ±12 square; y is the saddle value
`(x² − z²) · 0.08`, with no further randomness. -/
def nashTriple (rnd : ℕ → ℝ) (i : ℕ) : ℝ × ℝ × ℝ :=
  let saddleRange : ℝ := 12
  let sx := (draw rnd i 14 - 0.5) * 2 * saddleRange
  let sz := (draw rnd i 15 - 0.5) * 2 * saddleRange
  let sy := (sx * sx - sz * sz) * 0.08
  (sx, sy, sz)

/-- One fixed-step Euler step of the Lorenz system with σ = 10, ρ = 28,
β = 8/3, dt = 0.01, exactly as the shared mutable `lx, ly, lz` state is
advanced at the top of each loop iteration. -/
def lorenzStep (s : ℝ × ℝ × ℝ) : ℝ × ℝ × ℝ :=
  let sigma : ℝ := 10
  let rho : ℝ := 28
  let beta : ℝ := 8 / 3
  let dt : ℝ := 0.01
  let lx := s.1
  let ly := s.2.1
  let lz := s.2.2
  let dx := sigma * (ly - lx) * dt
  let dy := (lx * (rho - lz) - ly) * dt
  let dz := (lx * ly - beta * lz) * dt
  (lx + dx, ly + dy, lz + dz)

/-- The shared integration state at the start of loop iteration `i`
(equivalently, after `i` Euler steps from the initial `(0.1, 0, 0)`). -/
def lorenzState : ℕ → ℝ × ℝ × ℝ
  | 0 => (0.1, 0, 0)
  | n + 1 => lorenzStep (lorenzState n)

/-- Mode 8, lorenz: iteration `i` first advances the shared state, then
pushes the scaled point `(lx·0.8, ly·0.8, (lz − 25)·0.8)`. -/
def lorenzTriple (i : ℕ) : ℝ × ℝ × ℝ :=
  let s := lorenzState (i + 1)
  (s.1 * 0.8, s.2.1 * 0.8, (s.2.2 - 25) * 0.8)

/-- The phyllotaxis angle at index `i`: `i × 137.5°` in radians. -/
def goldenTheta (i : ℕ) : ℝ := (i : ℝ) * (137.5 * (Real.pi / 180))

/-- Mode 9, golden: phyllotaxis spiral, radius `0.5·√i`, height linear in
`i / N`. -/
def goldenTriple (pCount i : ℕ) : ℝ × ℝ × ℝ :=
  let radius := 0.5 * Real.sqrt (i : ℝ)
  (Real.cos (goldenTheta i) * radius,
   ((i : ℝ) / (pCount : ℝ)) * 10 - 5,
   Real.sin (goldenTheta i) * radius)

/-- Mode 10, topology: figure-eight immersion of the Klein bottle at
`u = 2π·i/N`, `v = 2π·(i mod 50)/50`, scaled by 4. -/
def topologyTriple (pCount i : ℕ) : ℝ × ℝ × ℝ :=
  let u := ((i : ℝ) / (pCount : ℝ)) * Real.pi * 2
  let v := ((i % 50 : ℕ) : ℝ) * (Real.pi * 2 / 50)
  let r : ℝ := 3
  let kx := (r + Real.cos (u / 2) * Real.sin v - Real.sin (u / 2) * Real.sin (2 * v)) * Real.cos u
  let ky := (r + Real.cos (u / 2) * Real.sin v - Real.sin (u / 2) * Real.sin (2 * v)) * Real.sin u
  let kz := Real.sin (u / 2) * Real.sin v + Real.cos (u / 2) * Real.sin (2 * v)
  (kx * 4, ky * 4, kz * 4)

/-- Mode 11, calculus: helicoid with radius swept over `i / N` and angle
from `i mod 50`, scaled by 2. -/
def calculusTriple (pCount i : ℕ) : ℝ × ℝ × ℝ :=
  let cU := ((i : ℝ) / (pCount : ℝ)) * 10 - 5
  let cV := ((i % 50 : ℕ) : ℝ) * 0.2 * Real.pi
  (cU * Real.cos cV * 2, cU * Real.sin cV * 2, (cV / 2 - 5) * 2)

/-- Mode 12, series: uniform spherical angles with a bi-frequency radius
ripple. -/
def seriesTriple (rnd : ℕ → ℝ) (i : ℕ) : ℝ × ℝ × ℝ :=
  let sTheta := draw rnd i 16 * Real.pi * 2
  let sPhi := Real.arccos (2 * draw rnd i 17 - 1)
  let sR := 10 + 5 * Real.sin (6 * sTheta) * Real.cos (5 * sPhi)
  (sR * Real.sin sPhi * Real.cos sTheta,
   sR * Real.sin sPhi * Real.sin sTheta,
   sR * Real.cos sPhi)

/-- The flat buffer built by pushing the triple `g i` for each
`i = 0 .. N-1` in order (three numbers per index). -/
def tripleFlat (g : ℕ → ℝ × ℝ × ℝ) (N : ℕ) : List ℝ :=
  (List.range N).flatMap (fun i => [(g i).1, (g i).2.1, (g i).2.2])

/-- The twelve target buffers produced by one call of `createParticles` with
particle count `N` and random stream `rnd`. -/
structure Targets where
  graph : List ℝ
  orbit : List ℝ
  matrix : List ℝ
  threebody : List ℝ
  neural : List ℝ
  quant : List ℝ
  nash : List ℝ
  lorenz : List ℝ
  golden : List ℝ
  topology : List ℝ
  calculus : List ℝ
  series : List ℝ

/-- `createParticles`: the single generation pass, producing all twelve
target buffers for particle count `N`. -/
def createParticles (rnd : ℕ → ℝ) (N : ℕ) : Targets :=
  { graph := tripleFlat (graphTriple rnd) N
    orbit := tripleFlat (orbitTriple rnd) N
    matrix := tripleFlat matrixTriple N
    threebody := tripleFlat (threebodyTriple rnd) N
    neural := tripleFlat (neuralTriple rnd) N
    quant := tripleFlat (quantTriple rnd N) N
    nash := tripleFlat (nashTriple rnd) N
    lorenz := tripleFlat lorenzTriple N
    golden := tripleFlat (goldenTriple N) N
    topology := tripleFlat (topologyTriple N) N
    calculus := tripleFlat (calculusTriple N) N
    series := tripleFlat (seriesTriple rnd) N }

end

/-! ### Per-frame movement and coloring (`animate`) -/

/-- The twelve mode identifiers handled by the movement if-chain of the
render loop (and exactly the keys of `VIZ_DESCRIPTIONS`). -/
def knownModes : List String :=
  ["graph", "orbit", "matrix", "threebody", "neural", "quant",
   "nash", "lorenz", "golden", "topology", "calculus", "series"]

noncomputable section

/-- Read-only view of the twelve flat target buffers as indexing functions,
as the render loop sees them (`targets.graph[i3]`, …). -/
structure TargetView where
  graph : ℕ → ℝ
  orbit : ℕ → ℝ
  matrix : ℕ → ℝ
  threebody : ℕ → ℝ
  neural : ℕ → ℝ
  quant : ℕ → ℝ
  nash : ℕ → ℝ
  lorenz : ℕ → ℝ
  golden : ℕ → ℝ
  topology : ℕ → ℝ
  calculus : ℕ → ℝ
  series : ℕ → ℝ

/-- The per-frame target `(tx, ty, tz)` of particle `i` under `mode` at
elapsed `time`: initialised to `(0, 0, 0)`, then set by the mode if-chain,
including the time-varying offsets of orbit, matrix, threebody and quant.
A mode outside the chain leaves the initial zeros in place. -/
def frameTarget (tg : TargetView) (mode : String) (time : ℝ) (i : ℕ) : ℝ × ℝ × ℝ :=
  let i3 := i * 3
  if mode = "graph" then
    (tg.graph i3, tg.graph (i3 + 1), tg.graph (i3 + 2))
  else if mode = "orbit" then
    (tg.orbit i3, tg.orbit (i3 + 1) + Real.sin (time * 2 + i) * 1.5, tg.orbit (i3 + 2))
  else if mode = "matrix" then
    (tg.matrix i3, tg.matrix (i3 + 1) + Real.sin (time + tg.matrix i3 * 0.3) * 2,
     tg.matrix (i3 + 2))
  else if mode = "threebody" then
    (tg.threebody i3 + Real.sin (time * 2 + i) * 2,
     tg.threebody (i3 + 1) + Real.cos (time * 1.5 + i) * 2,
     tg.threebody (i3 + 2) + Real.sin (time + i) * 2)
  else if mode = "neural" then
    (tg.neural i3, tg.neural (i3 + 1), tg.neural (i3 + 2))
  else if mode = "quant" then
    (tg.quant i3, tg.quant (i3 + 1) + Real.sin (time * 2 + tg.quant i3 * 0.1) * 2,
     tg.quant (i3 + 2))
  else if mode = "nash" then
    (tg.nash i3, tg.nash (i3 + 1), tg.nash (i3 + 2))
  else if mode = "lorenz" then
    (tg.lorenz i3, tg.lorenz (i3 + 1), tg.lorenz (i3 + 2))
  else if mode = "golden" then
    (tg.golden i3, tg.golden (i3 + 1), tg.golden (i3 + 2))
  else if mode = "topology" then
    (tg.topology i3, tg.topology (i3 + 1), tg.topology (i3 + 2))
  else if mode = "calculus" then
    (tg.calculus i3, tg.calculus (i3 + 1), tg.calculus (i3 + 2))
  else if mode = "series" then
    (tg.series i3, tg.series (i3 + 1), tg.series (i3 + 2))
  else (0, 0, 0)

/-- One easing step of a live coordinate toward its target:
`p += (t − p) * 0.04`. -/
def easeStep (p t : ℝ) : ℝ := p + (t - p) * 0.04

/-- The neural pulse position at elapsed `time` (seconds):
`((time * 4) mod 40) − 20`, the cycle along the x-axis. -/
def wavePos (time : ℝ) : ℝ := (time * 4 - 40 * ⌊time * 4 / 40⌋) - 20

/-- The color buffer after the per-frame coloring step of `animate`, as a
function of flat index: only the neural branch writes colors (a Gaussian
glow of each particle's x-distance from the sweeping pulse, over the `N`
particles); every other mode leaves the buffer exactly as it was. -/
def frameColors (mode : String) (time : ℝ) (pos colors : ℕ → ℝ) (N : ℕ) : ℕ → ℝ :=
  if mode = "neural" then
    fun idx =>
      if idx < 3 * N then
        let i := idx / 3
        let x := pos (i * 3)
        let dist := |x - wavePos time|
        let glow := Real.exp (-(dist * dist) / 10)
        if idx % 3 = 0 then 0.83 + 0.17 * glow
        else if idx % 3 = 1 then 0.68 + 0.32 * glow
        else 0.21 + 0.79 * glow
      else colors idx
  else colors

end

/-! ### Concrete sample inputs used to instantiate the theorems -/

/-- A position buffer with particle 0 at the origin and particle 1 at
`(3, 0, 0)`, so their squared distance is 9. -/
def nashProbe : ℕ → ℚ := fun idx => if idx = 3 then 3 else 0

/-- A constant pseudo-random stream. -/
def zeroStream : ℕ → ℝ := fun _ => 0

/-- A target view whose buffers are identically zero. -/
def zeroView : TargetView :=
  { graph := fun _ => 0
    orbit := fun _ => 0
    matrix := fun _ => 0
    threebody := fun _ => 0
    neural := fun _ => 0
    quant := fun _ => 0
    nash := fun _ => 0
    lorenz := fun _ => 0
    golden := fun _ => 0
    topology := fun _ => 0
    calculus := fun _ => 0
    series := fun _ => 0 }

/-- An identically zero flat buffer. -/
def zeroBuf : ℕ → ℝ := fun _ => 0

/-! ### Helper lemmas -/

/-- Three numbers are pushed per index, so a generated buffer for count `N`
has `3 × N` entries. -/
theorem tripleFlat_length (g : ℕ → ℝ × ℝ × ℝ) (N : ℕ) :
    (tripleFlat g N).length = 3 * N := by
  induction N with
  | zero => rfl
  | succ n ih =>
    unfold tripleFlat at *
    rw [List.range_succ, List.flatMap_append, List.length_append, ih]
    simp [Nat.mul_succ]

/-- Truncating a generated buffer to its first `3·k` entries recovers the
buffer generated for count `k`, for any `k ≤ N`. -/
theorem tripleFlat_take (g : ℕ → ℝ × ℝ × ℝ) {k N : ℕ} (h : k ≤ N) :
    (tripleFlat g N).take (3 * k) = tripleFlat g k := by
  obtain ⟨d, rfl⟩ := Nat.exists_eq_add_of_le h
  have hlen := tripleFlat_length g k
  unfold tripleFlat at *
  rw [List.range_add, List.flatMap_append, ← hlen, List.take_left]

/-! ### Claim theorems -/

/-- C1: for every mode of the twelve and every particle count `N`, the
target buffer generated by `createParticles` has exactly `3 × N` entries.
Every entry is a (total, finite) real number by construction in this
embedding — the generation pass uses only total real operations, including
the `N`-step Euler-integrated lorenz table. -/
theorem createParticles_buffer_sizes (rnd : ℕ → ℝ) (N : ℕ) :
    (createParticles rnd N).graph.length = 3 * N
    ∧ (createParticles rnd N).orbit.length = 3 * N
    ∧ (createParticles rnd N).matrix.length = 3 * N
    ∧ (createParticles rnd N).threebody.length = 3 * N
    ∧ (createParticles rnd N).neural.length = 3 * N
    ∧ (createParticles rnd N).quant.length = 3 * N
    ∧ (createParticles rnd N).nash.length = 3 * N
    ∧ (createParticles rnd N).lorenz.length = 3 * N
    ∧ (createParticles rnd N).golden.length = 3 * N
    ∧ (createParticles rnd N).topology.length = 3 * N
    ∧ (createParticles rnd N).calculus.length = 3 * N
    ∧ (createParticles rnd N).series.length = 3 * N := by
  refine ⟨?_, ?_, ?_, ?_, ?_, ?_, ?_, ?_, ?_, ?_, ?_, ?_⟩ <;>
    exact tripleFlat_length _ _

/-- C2: the lorenz table is a shared-state sequential integration, so for
`k < N` the first `3·k` entries of the table generated with `N` particles
are exactly the table generated with `k` particles — whatever random
streams the two runs consume, since the lorenz layout draws no randomness. -/
theorem lorenz_table_sequential (rnd rnd2 : ℕ → ℝ) (k N : ℕ) (h : k < N) :
    ((createParticles rnd N).lorenz).take (3 * k) = (createParticles rnd2 k).lorenz :=
  tripleFlat_take lorenzTriple (Nat.le_of_lt h)

/-- Witness for C2 at `k = 2`, `N = 5`. -/
theorem lorenz_table_sequential_witness :
    2 < 5
    ∧ ((createParticles zeroStream 5).lorenz).take (3 * 2)
        = (createParticles zeroStream 2).lorenz :=
  ⟨by norm_num, lorenz_table_sequential zeroStream zeroStream 2 5 (by norm_num)⟩

/-- C5: every generated nash target triple `(x, y, z)` satisfies
`y = (x² − z²) × 0.08` exactly; `y` depends only on the drawn `x` and `z`. -/
theorem nash_saddle_exact (rnd : ℕ → ℝ) (i : ℕ) :
    (nashTriple rnd i).2.1
      = ((nashTriple rnd i).1 ^ 2 - (nashTriple rnd i).2.2 ^ 2) * 0.08 := by
  simp only [nashTriple]
  ring

/-- C6: the golden target at index `i` has planar radius
`√(x² + z²) = 0.5·√i`, and the phyllotaxis angle of consecutive indices
differs by exactly `137.5°` converted to radians. -/
theorem golden_radius_and_angle_step (N i : ℕ) :
    Real.sqrt ((goldenTriple N i).1 ^ 2 + (goldenTriple N i).2.2 ^ 2)
      = 0.5 * Real.sqrt (i : ℝ)
    ∧ goldenTheta (i + 1) - goldenTheta i = 137.5 * (Real.pi / 180) := by
  constructor
  · have hr : (0 : ℝ) ≤ 0.5 * Real.sqrt (i : ℝ) := by positivity
    have h1 : (Real.cos (goldenTheta i) * (0.5 * Real.sqrt (i : ℝ))) ^ 2
        + (Real.sin (goldenTheta i) * (0.5 * Real.sqrt (i : ℝ))) ^ 2
        = (Real.sin (goldenTheta i) ^ 2 + Real.cos (goldenTheta i) ^ 2)
            * (0.5 * Real.sqrt (i : ℝ)) ^ 2 := by ring
    simp only [goldenTriple]
    rw [h1, Real.sin_sq_add_cos_sq, one_mul, Real.sqrt_sq hr]
  · simp only [goldenTheta]
    push_cast
    ring

/-- C3 counterexample: with particle 0 at the origin and particle 1 at
`(3, 0, 0)` — squared distance 9, the pair scanned under the desktop window
— the nash rebuild emits no segment at all: the claim that a segment is
emitted between them is false on the code. -/
theorem nash_distSq_nine_no_segment :
    distSq nashProbe 0 1 = 9
    ∧ (0, 1) ∈ scanPairs false 2
    ∧ pairEmits "nash" nashProbe 0 1 = false
    ∧ updateLines "nash" false 2 nashProbe = (true, some []) := by
  have hd : distSq nashProbe 0 1 = 9 := by
    norm_num [distSq, nashProbe]
  have hsp : scanPairs false 2 = [(0, 1)] := by decide
  have ht : lineThreshold "nash" = 8 := by simp [lineThreshold]
  have hpe : pairEmits "nash" nashProbe 0 1 = false := by
    simp only [pairEmits, hd, ht]
    exact decide_eq_false (by norm_num)
  refine ⟨hd, by rw [hsp]; exact List.mem_singleton.mpr rfl, hpe, ?_⟩
  simp [updateLines, hsp, hpe]

/-- C3 (amended): under mode nash a scanned pair is emitted exactly when its
squared distance is strictly below the threshold 8 — strict `<`, not `≤` —
so at squared distance 9 no segment is emitted. -/
theorem nash_emission_strict (pos : ℕ → ℚ) (i j : ℕ) :
    pairEmits "nash" pos i j = true ↔ distSq pos i j < 8 := by
  simp [pairEmits, lineThreshold]

/-- C4: `updateLines` hides the mesh and rebuilds nothing exactly for the
five modes lorenz, quant, series, topology, calculus; for every other mode
it rebuilds, from the scanned pairs — outer index a multiple of the stride
(2 desktop, 3 mobile), inner index within the look-ahead window (40 desktop,
15 mobile) and below the particle count — one segment per pair whose squared
distance is strictly below the mode threshold: 30 for neural, 8 for nash,
14 for matrix and 12 otherwise. -/
theorem updateLines_spec (mode : String) (isMobile : Bool) (limit : ℕ) (pos : ℕ → ℚ) :
    (updateLines mode isMobile limit pos = (false, none) ↔ mode ∈ lineSkipModes)
    ∧ (mode ∉ lineSkipModes →
        updateLines mode isMobile limit pos
          = (true, some ((scanPairs isMobile limit).flatMap
              (fun p => if pairEmits mode pos p.1 p.2 then segmentOf pos p.1 p.2 else []))))
    ∧ (∀ i j : ℕ, (i, j) ∈ scanPairs isMobile limit ↔
        i % (if isMobile then 3 else 2) = 0 ∧ i < limit ∧ i < j
          ∧ j < i + (if isMobile then 15 else 40) ∧ j < limit)
    ∧ (∀ i j : ℕ, pairEmits mode pos i j = true ↔ distSq pos i j < lineThreshold mode)
    ∧ lineThreshold "neural" = 30 ∧ lineThreshold "nash" = 8 ∧ lineThreshold "matrix" = 14
    ∧ (mode ≠ "neural" → mode ≠ "nash" → mode ≠ "matrix" → lineThreshold mode = 12) := by
  refine ⟨?_, ?_, ?_, ?_, by decide, by decide, by decide, ?_⟩
  · by_cases hs : mode = "lorenz" ∨ mode = "quant" ∨ mode = "series"
        ∨ mode = "topology" ∨ mode = "calculus"
    · simp [updateLines, hs, lineSkipModes]
    · simp [updateLines, hs, lineSkipModes]
  · intro h
    have hs : ¬(mode = "lorenz" ∨ mode = "quant" ∨ mode = "series"
        ∨ mode = "topology" ∨ mode = "calculus") := by
      simpa [lineSkipModes] using h
    simp only [updateLines, if_neg hs]
  · intro i j
    simp only [scanPairs, outerScan, innerScan, List.mem_flatMap, List.mem_map,
      List.mem_filter, List.mem_range, List.mem_range'_1, Prod.mk.injEq]
    constructor
    · rintro ⟨a, ⟨ha1, ha2⟩, b, hb, rfl, rfl⟩
      simp only [decide_eq_true_eq] at ha2
      omega
    · rintro ⟨h1, h2, h3, h4, h5⟩
      exact ⟨i, ⟨h2, by simpa using h1⟩, j, by omega, rfl, rfl⟩
  · intro i j
    simp [pairEmits]
  · intro h1 h2 h3
    simp [lineThreshold, h1, h2, h3]

/-- C7: switching to mode `m` at time `now` immediately makes `m` the active
mode read by the very next frame, leaves the displayed insight untouched,
keeps it (and the active mode `m`) at every delivery instant before
`now + 500` ms, and from `now + 500` ms on the insight becomes the
description of `m`. -/
theorem changeVizMode_timing (s : UIState) (m : String) (now : ℕ) :
    (changeVizMode now m s).mode = m
    ∧ (changeVizMode now m s).insight = s.insight
    ∧ (∀ t, t < now + 500 →
        (fireInsightTimer t (changeVizMode now m s)).insight = s.insight
        ∧ (fireInsightTimer t (changeVizMode now m s)).mode = m)
    ∧ (∀ t, now + 500 ≤ t →
        (fireInsightTimer t (changeVizMode now m s)).insight = VIZ_DESCRIPTIONS.lookup m
        ∧ (fireInsightTimer t (changeVizMode now m s)).mode = m) := by
  refine ⟨rfl, rfl, ?_, ?_⟩
  · intro t ht
    have hc : ¬(now + 500 ≤ t) := by omega
    simp [fireInsightTimer, changeVizMode, hc]
  · intro t ht
    simp [fireInsightTimer, changeVizMode, ht]

/-- C8: for any mode other than neural, one iteration of the render loop
leaves every entry of the particle color buffer exactly as it was; only the
neural branch writes colors. -/
theorem non_neural_colors_unchanged (mode : String) (time : ℝ) (pos colors : ℕ → ℝ)
    (N idx : ℕ) (h : mode ≠ "neural") :
    frameColors mode time pos colors N idx = colors idx := by
  simp [frameColors, h]

/-- Witness for C8: the graph mode keeps the zero color buffer unchanged. -/
theorem non_neural_colors_unchanged_witness :
    "graph" ≠ "neural" ∧ frameColors "graph" 0 zeroBuf zeroBuf 1 0 = zeroBuf 0 :=
  ⟨by decide, non_neural_colors_unchanged "graph" 0 zeroBuf zeroBuf 1 0 (by decide)⟩

/-- C9: for an active mode outside the twelve known identifiers, the
movement step uses `(0, 0, 0)` as every particle's target, so each live
coordinate is eased toward the origin by the fixed fraction 0.04 per
frame. -/
theorem unknown_mode_eases_to_origin (tg : TargetView) (mode : String) (time : ℝ)
    (i : ℕ) (p : ℝ) (h : mode ∉ knownModes) :
    frameTarget tg mode time i = (0, 0, 0) ∧ easeStep p 0 = p - 0.04 * p := by
  simp only [knownModes, List.mem_cons, List.not_mem_nil, or_false, not_or] at h
  obtain ⟨h1, h2, h3, h4, h5, h6, h7, h8, h9, h10, h11, h12⟩ := h
  constructor
  · simp only [frameTarget, if_neg h1, if_neg h2, if_neg h3, if_neg h4, if_neg h5,
      if_neg h6, if_neg h7, if_neg h8, if_neg h9, if_neg h10, if_neg h11, if_neg h12]
  · simp only [easeStep]
    ring

/-- Witness for C9 at the string `limitless`, an identically-zero target
view and live coordinate 1. -/
theorem unknown_mode_eases_to_origin_witness :
    "limitless" ∉ knownModes
    ∧ (frameTarget zeroView "limitless" 0 0 = (0, 0, 0)
        ∧ easeStep 1 0 = 1 - 0.04 * 1) :=
  ⟨by decide, unknown_mode_eases_to_origin zeroView "limitless" 0 0 1 (by decide)⟩

/-- C10: the mode switcher validates nothing: for an identifier `m` outside
the twelve keys of the description table, the deferred lookup
`VIZ_DESCRIPTIONS[m]` yields no entry, so once the 500 ms timer fires the
insight state is set to a non-existent description (`none`). -/
theorem changeVizMode_unknown_mode (s : UIState) (m : String) (now : ℕ)
    (h : m ∉ VIZ_DESCRIPTIONS.map Prod.fst) :
    VIZ_DESCRIPTIONS.lookup m = none
    ∧ (fireInsightTimer (now + 500) (changeVizMode now m s)).insight = none := by
  simp only [VIZ_DESCRIPTIONS, List.map_cons, List.map_nil, List.mem_cons,
    List.not_mem_nil, or_false, not_or] at h
  obtain ⟨h1, h2, h3, h4, h5, h6, h7, h8, h9, h10, h11, h12⟩ := h
  have hl : VIZ_DESCRIPTIONS.lookup m = none := by
    have b1 : (m == "graph") = false := beq_eq_false_iff_ne.mpr h1
    have b2 : (m == "orbit") = false := beq_eq_false_iff_ne.mpr h2
    have b3 : (m == "matrix") = false := beq_eq_false_iff_ne.mpr h3
    have b4 : (m == "threebody") = false := beq_eq_false_iff_ne.mpr h4
    have b5 : (m == "lorenz") = false := beq_eq_false_iff_ne.mpr h5
    have b6 : (m == "neural") = false := beq_eq_false_iff_ne.mpr h6
    have b7 : (m == "quant") = false := beq_eq_false_iff_ne.mpr h7
    have b8 : (m == "nash") = false := beq_eq_false_iff_ne.mpr h8
    have b9 : (m == "golden") = false := beq_eq_false_iff_ne.mpr h9
    have b10 : (m == "topology") = false := beq_eq_false_iff_ne.mpr h10
    have b11 : (m == "calculus") = false := beq_eq_false_iff_ne.mpr h11
    have b12 : (m == "series") = false := beq_eq_false_iff_ne.mpr h12
    simp [VIZ_DESCRIPTIONS, List.lookup, b1, b2, b3, b4, b5, b6, b7, b8, b9,
      b10, b11, b12]
  refine ⟨hl, ?_⟩
  simp [fireInsightTimer, changeVizMode, hl]

/-- Witness for C10 at the string `limitless` and the initial UI state. -/
theorem changeVizMode_unknown_mode_witness :
    "limitless" ∉ VIZ_DESCRIPTIONS.map Prod.fst
    ∧ (VIZ_DESCRIPTIONS.lookup "limitless" = none
        ∧ (fireInsightTimer (0 + 500) (changeVizMode 0 "limitless" initialUIState)).insight
            = none) :=
  ⟨by decide, changeVizMode_unknown_mode initialUIState "limitless" 0 (by decide)⟩

end TTC
